import Mathlib

/-!
Verification of the Genshin-Probabilities Monte-Carlo simulation
(`src/simulation.py`).

The draw engine, trial runner and aggregator are shallowly embedded.
Every call to Python's `random` module is replaced by reading one field of
an oracle record `Rand`; each wish consumes one such record, supplied by
a stream `ℕ → Rand`.  Python ints become `ℕ`/`ℤ`, probability weights
become exact rationals `ℚ`, `math.ceil(a / b)` becomes
`Int.ceil ((a : ℚ) / b)`, and the `float("inf")` sentinel that
`_simulation`/`_display` may store into `average_wishes_taken` becomes the
`AvgVal.inf` constructor.
-/

namespace Sim

/-- Randomness available to one wish: `coin` is the uniform `[0,1)` draw
behind `random.choices(population=[True, False], weights=[wT, wF])`
(which returns `True` iff `coin < wT` since `wT + wF = 1`), `int1000` is
`random.randint(1, 1000)`, and `fair` is `random.choice([True, False])`. -/
structure Rand where
  coin : ℚ
  int1000 : ℕ
  fair : Bool
  deriving DecidableEq, Repr

/-- The per-banner mutable fields of the `Simulation` object that the draw
engine reads and writes: `current_pity`, `banner_pity`, `isGuaranteed`,
`CR_score`. -/
structure BannerState where
  current_pity : ℕ
  banner_pity : ℕ
  isGuaranteed : Bool
  CR_score : ℕ
  deriving DecidableEq, Repr

/-- `soft_pity_value = self.banner_pity - self.current_pity` (Python int
subtraction, so valued in `ℤ`). -/
def soft_pity_value (s : BannerState) : ℤ :=
  (s.banner_pity : ℤ) - (s.current_pity : ℤ)

/-- `weight_True = 0.06 * (1 + 16 - soft_pity_value)` from
`_account_for_soft_pity`. -/
def weight_True (d : ℤ) : ℚ :=
  6 / 100 * (1 + 16 - (d : ℚ))

/-- `weight_False = 1 - weight_True` (the normalization condition) from
`_account_for_soft_pity`. -/
def weight_False (d : ℤ) : ℚ :=
  1 - weight_True d

/-- `Simulation._account_for_soft_pity`: if `soft_pity_value <= 16`, draw
the weighted coin with weights `[weight_True, weight_False]`; otherwise
draw `randint(1, 1000)` and report a hit exactly when it equals 6. -/
def account_for_soft_pity (s : BannerState) (r : Rand) : Bool :=
  let d := soft_pity_value s
  if d ≤ 16 then
    decide (r.coin < weight_True d)
  else
    r.int1000 == 6

/-- `Simulation._account_for_capturing_radiance`: if `CR_score == 3`,
reset it to 1 and activate; otherwise increment it and do not activate.
Returns (activated, new state). -/
def account_for_capturing_radiance (s : BannerState) : Bool × BannerState :=
  if s.CR_score == 3 then
    (true, { s with CR_score := 1 })
  else
    (false, { s with CR_score := s.CR_score + 1 })

/-- `Simulation._fifty_fifty`: a fair coin; on a loss, consult Capturing
Radiance. Returns (isSuccess, new state). -/
def fifty_fifty (s : BannerState) (r : Rand) : Bool × BannerState :=
  if r.fair then
    (true, s)
  else
    account_for_capturing_radiance s

/-- `Simulation._five_star`: on a rare hit, reset pity to 0; a guaranteed
hit is limited and clears the guarantee; otherwise the 50/50 (with
Capturing Radiance) decides, and the guarantee is set to the negation of
the outcome. Returns (isLimited_5_star, new state). -/
def five_star (s : BannerState) (r : Rand) : Bool × BannerState :=
  let s0 := { s with current_pity := 0 }
  if s0.isGuaranteed then
    (true, { s0 with isGuaranteed := false })
  else
    let p := fifty_fifty s0 r
    (p.1, { p.2 with isGuaranteed := !p.1 })

/-- The hit condition of `Simulation._one_wish`:
`(self.current_pity == self.banner_pity) or self._account_for_soft_pity()`. -/
def hits (s : BannerState) (r : Rand) : Bool :=
  (s.current_pity == s.banner_pity) || account_for_soft_pity s r

/-- `Simulation._one_wish`: on a hit run `_five_star`; on a miss increment
pity and return `False`. Returns (isLimited_5_star, new state). -/
def one_wish (s : BannerState) (r : Rand) : Bool × BannerState :=
  if hits s r then
    five_star s r
  else
    (false, { s with current_pity := s.current_pity + 1 })

/-- The banner-state trajectory under a stream of wishes: `states s r n`
is the state after `n` wishes, wish `n` consuming oracle record `r n`. -/
def states (s : BannerState) (r : ℕ → Rand) : ℕ → BannerState
  | 0 => s
  | n + 1 => (one_wish (states s r n) (r n)).2

/-- The constructor arguments of `Simulation.__init__` (the `verbose` flag
only affects printing and is omitted). -/
structure SimConfig where
  wish_count : ℕ
  target_5_star_count : ℕ
  current_pity : ℕ
  banner_pity : ℕ
  isGuaranteed : Bool
  CR_score : ℕ
  simulation_count : ℕ
  deriving DecidableEq, Repr

/-- The per-run mutable fields of the `Simulation` object threaded through
`_one_run` and across runs by `_simulation`: the banner state plus
`current_limited_count`, `wishes_taken_single_round` and
`wishes_taken_single_round_first` (all initialized to 0 in `__init__`). -/
structure RunState where
  banner : BannerState
  current_limited_count : ℕ
  wishes_taken_single_round : ℕ
  wishes_taken_single_round_first : ℕ
  deriving DecidableEq, Repr

/-- State of the `for wish_number in range(self.wish_count)` loop in
`_one_run`: the object fields plus the two local flags. -/
structure LoopState where
  rs : RunState
  isFirstLimited : Bool
  isFirstTargetReached : Bool
  deriving DecidableEq, Repr

/-- The body of the wish loop in `_one_run`, iterated. `base` is the
absolute oracle index of this run's first wish, `wish_number` the 0-based
loop counter, `rem` the number of wishes still to simulate. -/
def run_wishes (target : ℕ) (r : ℕ → Rand) (base : ℕ) :
    ℕ → ℕ → LoopState → LoopState
  | _, 0, ls => ls
  | wish_number, rem + 1, ls =>
    let w := one_wish ls.rs.banner (r (base + wish_number))
    let firstLim := w.1 && ls.isFirstLimited
    let first1 :=
      if firstLim then wish_number + 1 else ls.rs.wishes_taken_single_round_first
    let ifl1 := if firstLim then false else ls.isFirstLimited
    let limited1 := ls.rs.current_limited_count + (if w.1 then 1 else 0)
    let tgtHit := (limited1 == target) && ls.isFirstTargetReached
    let tgt1 :=
      if tgtHit then wish_number + 1 else ls.rs.wishes_taken_single_round
    let iftr1 := if tgtHit then false else ls.isFirstTargetReached
    run_wishes target r base (wish_number + 1) rem
      ⟨⟨w.2, limited1, tgt1, first1⟩, ifl1, iftr1⟩

/-- `Simulation._one_run`: simulate `wish_count` wishes (oracle indices
`base, base+1, ...`), then apply the not-reached sentinel to
`wishes_taken_single_round` only, and return whether at least the target
number of limited 5-stars was obtained, together with the updated object
fields. -/
def one_run (wish_count target : ℕ) (r : ℕ → Rand) (base : ℕ)
    (rs : RunState) : Bool × RunState :=
  let ls := run_wishes target r base 0 wish_count ⟨rs, true, true⟩
  let tgt1 :=
    if ls.isFirstTargetReached then wish_count
    else ls.rs.wishes_taken_single_round
  let rs1 := { ls.rs with wishes_taken_single_round := tgt1 }
  (decide (target ≤ rs1.current_limited_count), rs1)

/-- The three accumulators of `_simulation`: `success_trials` and the two
sums that `average_wishes_taken_first` / `average_wishes_taken` hold
before the final division. -/
structure SimTotals where
  success_trials : ℕ
  sum_first : ℕ
  sum_tgt : ℕ
  deriving DecidableEq, Repr

/-- The `for _ in range(self.simulation_count)` loop of `_simulation`:
run `_one_run`, accumulate, then reset `CR_score`, `current_limited_count`,
`current_pity` and `isGuaranteed` to their original values
(`wishes_taken_single_round` and `wishes_taken_single_round_first` are
not reset). Run `k` consumes oracle indices
`k * wish_count, ..., (k+1) * wish_count - 1`. -/
def sim_loop (cfg : SimConfig) (r : ℕ → Rand) :
    ℕ → ℕ → RunState → SimTotals → SimTotals × RunState
  | _, 0, rs, tot => (tot, rs)
  | k, rem + 1, rs, tot =>
    let p := one_run cfg.wish_count cfg.target_5_star_count r
      (k * cfg.wish_count) rs
    let tot1 : SimTotals :=
      ⟨tot.success_trials + (if p.1 then 1 else 0),
        tot.sum_first + p.2.wishes_taken_single_round_first,
        tot.sum_tgt + p.2.wishes_taken_single_round⟩
    let rs1 : RunState :=
      { p.2 with
        banner :=
          { p.2.banner with
            CR_score := cfg.CR_score
            current_pity := cfg.current_pity
            isGuaranteed := cfg.isGuaranteed }
        current_limited_count := 0 }
    sim_loop cfg r (k + 1) rem rs1 tot1

/-- The initial `RunState` built by `Simulation.__init__`. -/
def init_run_state (cfg : SimConfig) : RunState :=
  ⟨⟨cfg.current_pity, cfg.banner_pity, cfg.isGuaranteed, cfg.CR_score⟩, 0, 0, 0⟩

/-- The accumulator totals after all `simulation_count` runs. -/
def sim_totals (cfg : SimConfig) (r : ℕ → Rand) : SimTotals :=
  (sim_loop cfg r 0 cfg.simulation_count (init_run_state cfg) ⟨0, 0, 0⟩).1

/-- A statistic that is either an integer or `float("inf")`. -/
inductive AvgVal where
  | val : ℤ → AvgVal
  | inf : AvgVal
  deriving DecidableEq, Repr

/-- The outputs of the simulation consumed by `_display`. -/
structure SimResults where
  success_trials : ℕ
  success_probability : ℚ
  average_wishes_taken : AvgVal
  average_wishes_taken_first : AvgVal
  deriving DecidableEq, Repr

/-- The tail of `Simulation._simulation` after the loop:
`success_probability = success_trials / simulation_count`, both averages
are `math.ceil(sum / simulation_count)`, and `average_wishes_taken`
(only) is replaced by `float("inf")` when it equals 0. -/
def simulation (cfg : SimConfig) (r : ℕ → Rand) : SimResults :=
  let tot := sim_totals cfg r
  let avgFirst : ℤ := Int.ceil ((tot.sum_first : ℚ) / (cfg.simulation_count : ℚ))
  let avgTgt : ℤ := Int.ceil ((tot.sum_tgt : ℚ) / (cfg.simulation_count : ℚ))
  ⟨tot.success_trials,
    (tot.success_trials : ℚ) / (cfg.simulation_count : ℚ),
    if avgTgt = 0 then AvgVal.inf else AvgVal.val avgTgt,
    AvgVal.val avgFirst⟩

/-- The state change `_display` performs before printing: if
`average_wishes_taken == wish_count`, replace it by `float("inf")`. -/
def display_avg (wish_count : ℕ) : AvgVal → AvgVal
  | AvgVal.val n => if n = (wish_count : ℤ) then AvgVal.inf else AvgVal.val n
  | AvgVal.inf => AvgVal.inf

/-- `Simulation.run_simulation`: `_simulation` followed by `_display`;
the results as they stand after both (i.e. as printed). -/
def run_simulation (cfg : SimConfig) (r : ℕ → Rand) : SimResults :=
  let res := simulation cfg r
  { res with
    average_wishes_taken := display_avg cfg.wish_count res.average_wishes_taken }

/-! ### Concrete inputs used by witnesses and counterexamples -/

/-- An oracle on which every wish far from the cap misses:
`randint(1,1000)` returns 1 (≠ 6), the weighted coin value is 0 and the
fair coin loses. -/
def rMiss : ℕ → Rand := fun _ => ⟨0, 1, false⟩

/-- One run of one wish at pity 0 on a 90-pity banner: the single wish
misses under `rMiss`. -/
def cfgA : SimConfig := ⟨1, 1, 0, 90, false, 1, 1⟩

/-- An oracle whose first record makes the wish a limited hit
(`randint` returns 6, the fair coin wins) and all later records miss. -/
def rC1 : ℕ → Rand := fun n => if n = 0 then ⟨0, 6, true⟩ else ⟨0, 1, true⟩

/-- Two runs of two wishes each on a 90-pity banner: under `rC1` the
first run obtains a limited 5-star on wish 1 and the second run obtains
none. -/
def cfgC1 : SimConfig := ⟨2, 1, 0, 90, false, 1, 2⟩

/-! ### Helper lemmas about one wish -/

theorem one_wish_hit {s : BannerState} {r : Rand} (h : hits s r = true) :
    one_wish s r = five_star s r := by
  simp [one_wish, h]

theorem one_wish_miss {s : BannerState} {r : Rand} (h : hits s r = false) :
    one_wish s r = (false, { s with current_pity := s.current_pity + 1 }) := by
  simp [one_wish, h]

/-- On any rare hit, the guarantee flag after the wish is the negation of
the limited outcome of that wish. -/
theorem guaranteed_after_hit {s : BannerState} {r : Rand}
    (h : hits s r = true) :
    (one_wish s r).2.isGuaranteed = !(one_wish s r).1 := by
  rw [one_wish_hit h]
  unfold five_star fifty_fifty account_for_capturing_radiance
  by_cases hg : s.isGuaranteed <;> by_cases hf : r.fair <;>
    by_cases hc : s.CR_score == 3 <;> simp [hg, hf, hc]

/-- A rare hit entered with the guarantee flag set is limited and clears
the flag. -/
theorem guaranteed_hit_is_limited {s : BannerState} {r : Rand}
    (hg : s.isGuaranteed = true) (h : hits s r = true) :
    (one_wish s r).1 = true ∧ (one_wish s r).2.isGuaranteed = false := by
  rw [one_wish_hit h]
  unfold five_star
  simp [hg]

/-- A miss leaves the guarantee flag unchanged. -/
theorem miss_keeps_guarantee {s : BannerState} {r : Rand}
    (h : hits s r = false) :
    (one_wish s r).2.isGuaranteed = s.isGuaranteed := by
  rw [one_wish_miss h]

/-- The guarantee flag survives any block of misses. -/
theorem guaranteed_persists (s : BannerState) (r : ℕ → Rand) (a : ℕ) :
    ∀ n, (∀ k, a ≤ k → k < a + n → hits (states s r k) (r k) = false) →
      (states s r a).isGuaranteed = true →
      (states s r (a + n)).isGuaranteed = true := by
  intro n
  induction n with
  | zero => exact fun _ hg => hg
  | succ m ih =>
    intro hmiss hg
    have h1 : (states s r (a + m)).isGuaranteed = true :=
      ih (fun k hk1 hk2 => hmiss k hk1 (by omega)) hg
    have h2 : hits (states s r (a + m)) (r (a + m)) = false :=
      hmiss (a + m) (by omega) (by omega)
    show (one_wish (states s r (a + m)) (r (a + m))).2.isGuaranteed = true
    rw [miss_keeps_guarantee h2, h1]

/-- A banner state at hard pity on a zero-pity banner, used to witness the
guarantee chain: every wish is a forced rare hit. -/
def sHard : BannerState := ⟨0, 0, false, 1⟩

/-- An oracle on which the fair coin always loses. -/
def rF : ℕ → Rand := fun _ => ⟨0, 1, false⟩

/-- A banner state at pity 0 on a 90-pity banner. -/
def sA : BannerState := ⟨0, 90, false, 1⟩

/-- C4: for every draw sequence, immediately after a rare hit that
resolves as non-limited, the guarantee flag is true on entry to the next
rare hit, and that next rare hit unconditionally resolves to the limited
variant and clears the flag. -/
theorem guarantee_invariant_temporal (s : BannerState) (r : ℕ → Rand)
    (i j : ℕ) (hij : i < j)
    (hhi : hits (states s r i) (r i) = true)
    (hlim : (one_wish (states s r i) (r i)).1 = false)
    (hhj : hits (states s r j) (r j) = true)
    (hbetween : ∀ k, i < k → k < j → hits (states s r k) (r k) = false) :
    (states s r j).isGuaranteed = true
      ∧ (one_wish (states s r j) (r j)).1 = true
      ∧ (states s r (j + 1)).isGuaranteed = false := by
  have hg1 : (states s r (i + 1)).isGuaranteed = true := by
    show (one_wish (states s r i) (r i)).2.isGuaranteed = true
    rw [guaranteed_after_hit hhi, hlim]
    rfl
  have hgj : (states s r j).isGuaranteed = true := by
    have hp := guaranteed_persists s r (i + 1) (j - (i + 1))
      (fun k hk1 hk2 => hbetween k (by omega) (by omega)) hg1
    have heq : i + 1 + (j - (i + 1)) = j := by omega
    rwa [heq] at hp
  have hlj := guaranteed_hit_is_limited hgj hhj
  exact ⟨hgj, hlj.1, hlj.2⟩

/-- Witness for C4: on a zero-pity banner with a losing fair coin, wish 0
is a non-limited rare hit, wish 1 is the next rare hit; the guarantee
holds on entry to wish 1, wish 1 is limited, and the flag is cleared. -/
theorem guarantee_invariant_temporal_witness :
    (states sHard rF 1).isGuaranteed = true
      ∧ (one_wish (states sHard rF 1) (rF 1)).1 = true
      ∧ (states sHard rF 2).isGuaranteed = false :=
  guarantee_invariant_temporal sHard rF 0 1 (by decide) (by decide)
    (by decide) (by decide)
    (fun k hk1 hk2 => absurd hk2 (Nat.not_lt.mpr hk1))

/-- One wish preserves the banner-state invariant
`current_pity ≤ banner_pity ∧ CR_score ∈ {1,2,3}`. -/
theorem inv_step {s : BannerState} (r : Rand)
    (h1 : s.current_pity ≤ s.banner_pity)
    (h2 : s.CR_score = 1 ∨ s.CR_score = 2 ∨ s.CR_score = 3) :
    (one_wish s r).2.current_pity ≤ (one_wish s r).2.banner_pity
      ∧ ((one_wish s r).2.CR_score = 1 ∨ (one_wish s r).2.CR_score = 2
          ∨ (one_wish s r).2.CR_score = 3) := by
  by_cases h : hits s r = true
  · rw [one_wish_hit h]
    unfold five_star fifty_fifty account_for_capturing_radiance
    by_cases hg : s.isGuaranteed <;> by_cases hf : r.fair <;>
      by_cases hc : s.CR_score == 3 <;>
      simp only [beq_iff_eq] at hc <;>
      simp [hg, hf, hc] <;> omega
  · have h0 : hits s r = false := by simpa using h
    have hne : s.current_pity ≠ s.banner_pity := by
      intro he
      have ht : hits s r = true := by simp [hits, he]
      rw [ht] at h0
      exact Bool.true_eq_false.mp h0
    rw [one_wish_miss h0]
    refine ⟨?_, h2⟩
    simp only []
    omega

/-- The CR_score transition of one wish: it changes exactly on a rare hit
entered without the guarantee whose fair coin loses; then it resets to 1
if it was 3 (activation) and increments by 1 otherwise. -/
theorem cr_step (s : BannerState) (r : Rand) :
    (one_wish s r).2.CR_score =
      (if hits s r && !s.isGuaranteed && !r.fair then
        if s.CR_score = 3 then 1 else s.CR_score + 1
      else s.CR_score) := by
  by_cases h : hits s r = true
  · rw [one_wish_hit h]
    unfold five_star fifty_fifty account_for_capturing_radiance
    by_cases hg : s.isGuaranteed <;> by_cases hf : r.fair <;>
      by_cases hc : s.CR_score = 3 <;>
      simp [h, hg, hf, hc]
  · have h0 : hits s r = false := by simpa using h
    rw [one_wish_miss h0]
    simp [h0]

/-- C5: from any start with `current_pity ≤ banner_pity` and
`CR_score ∈ {1,2,3}`, every reachable state satisfies the same bounds
(`0 ≤ current_pity` holds by the ℕ carrier), and the secondary counter
resets to 1 exactly when it activates at 3 and otherwise increments by 1
only on a non-guaranteed fair-coin loss within a rare hit. -/
theorem pity_and_cr_invariant (s : BannerState) (r : ℕ → Rand) (n : ℕ)
    (h1 : s.current_pity ≤ s.banner_pity)
    (h2 : s.CR_score = 1 ∨ s.CR_score = 2 ∨ s.CR_score = 3) :
    ((states s r n).current_pity ≤ (states s r n).banner_pity
      ∧ ((states s r n).CR_score = 1 ∨ (states s r n).CR_score = 2
          ∨ (states s r n).CR_score = 3))
      ∧ (one_wish (states s r n) (r n)).2.CR_score =
          (if hits (states s r n) (r n) && !(states s r n).isGuaranteed
              && !(r n).fair then
            if (states s r n).CR_score = 3 then 1
            else (states s r n).CR_score + 1
          else (states s r n).CR_score) := by
  refine ⟨?_, cr_step _ _⟩
  induction n with
  | zero => exact ⟨h1, h2⟩
  | succ m ih => exact inv_step (r m) ih.1 ih.2

/-- Witness for C5 at a concrete start, stream and step. -/
theorem pity_and_cr_invariant_witness :
    ((states sA rMiss 1).current_pity ≤ (states sA rMiss 1).banner_pity
      ∧ ((states sA rMiss 1).CR_score = 1 ∨ (states sA rMiss 1).CR_score = 2
          ∨ (states sA rMiss 1).CR_score = 3))
      ∧ (one_wish (states sA rMiss 1) (rMiss 1)).2.CR_score =
          (if hits (states sA rMiss 1) (rMiss 1)
              && !(states sA rMiss 1).isGuaranteed && !(rMiss 1).fair then
            if (states sA rMiss 1).CR_score = 3 then 1
            else (states sA rMiss 1).CR_score + 1
          else (states sA rMiss 1).CR_score) :=
  pity_and_cr_invariant sA rMiss 1 (by decide) (by decide)

/-- C7: at hard pity (`current_pity = banner_pity`) the next draw is a
rare hit no matter what the oracle supplies, bypassing the soft-pity
curve: `_one_wish` short-circuits into `_five_star`. -/
theorem hard_pity_forces_hit (s : BannerState) (r : Rand)
    (h : s.current_pity = s.banner_pity) :
    hits s r = true ∧ one_wish s r = five_star s r := by
  have hh : hits s r = true := by simp [hits, h]
  exact ⟨hh, one_wish_hit hh⟩

/-- Witness for C7 at hard pity 90 with an oracle that would miss. -/
theorem hard_pity_forces_hit_witness :
    hits ⟨90, 90, true, 1⟩ ⟨0, 1, false⟩ = true
      ∧ one_wish ⟨90, 90, true, 1⟩ ⟨0, 1, false⟩
          = five_star ⟨90, 90, true, 1⟩ ⟨0, 1, false⟩ :=
  hard_pity_forces_hit ⟨90, 90, true, 1⟩ ⟨0, 1, false⟩ rfl

/-- C8: a wish that misses returns `is_limited_hit = false`, increments
`current_pity` by exactly 1 and leaves `isGuaranteed`, `CR_score` and
`banner_pity` unchanged. -/
theorem miss_frame_effect (s : BannerState) (r : Rand)
    (h : hits s r = false) :
    (one_wish s r).1 = false
      ∧ (one_wish s r).2.current_pity = s.current_pity + 1
      ∧ (one_wish s r).2.isGuaranteed = s.isGuaranteed
      ∧ (one_wish s r).2.CR_score = s.CR_score
      ∧ (one_wish s r).2.banner_pity = s.banner_pity := by
  rw [one_wish_miss h]
  exact ⟨rfl, rfl, rfl, rfl, rfl⟩

/-- Witness for C8 at a concrete missing wish. -/
theorem miss_frame_effect_witness :
    (one_wish sA ⟨0, 1, false⟩).1 = false
      ∧ (one_wish sA ⟨0, 1, false⟩).2.current_pity = sA.current_pity + 1
      ∧ (one_wish sA ⟨0, 1, false⟩).2.isGuaranteed = sA.isGuaranteed
      ∧ (one_wish sA ⟨0, 1, false⟩).2.CR_score = sA.CR_score
      ∧ (one_wish sA ⟨0, 1, false⟩).2.banner_pity = sA.banner_pity :=
  miss_frame_effect sA ⟨0, 1, false⟩ (by decide)

/-- A banner state inside the soft-pity window: pity 80 on a 90-pity
banner, so `soft_pity_value = 10 ≤ 16`. -/
def sSoft : BannerState := ⟨80, 90, false, 1⟩

/-- Counterexample to C6 as stated: the curve's value at
`distance_to_cap = 1` is literally `0.96`, so it does not reach `1.0`
there. -/
theorem soft_pity_curve_not_one :
    weight_True 1 = 96 / 100 ∧ weight_True 1 ≠ 1 := by
  rw [weight_True]
  norm_num

/-- C6 (amended): inside the soft-pity window the draw uses the weighted
coin with weight `weight_True = 0.06 * (1 + 16 - distance)`, which is
monotonically non-decreasing as the distance decreases and takes the
literal boundary values `p(16) = 0.06` and `p(1) = 0.96` (not `1.0`). -/
theorem soft_pity_curve_amended (s : BannerState) (r : Rand) (d d' : ℤ)
    (h0 : soft_pity_value s ≤ 16)
    (h1 : 1 ≤ d') (h2 : d' ≤ d) (h3 : d ≤ 16) :
    account_for_soft_pity s r
        = decide (r.coin < weight_True (soft_pity_value s))
      ∧ weight_True d = 6 / 100 * (1 + 16 - (d : ℚ))
      ∧ weight_True 16 = 6 / 100
      ∧ weight_True 1 = 96 / 100
      ∧ weight_True d ≤ weight_True d' := by
  refine ⟨?_, rfl, by rw [weight_True]; norm_num, by rw [weight_True]; norm_num, ?_⟩
  · unfold account_for_soft_pity
    simp [h0]
  · have hq : (d' : ℚ) ≤ (d : ℚ) := by exact_mod_cast h2
    rw [weight_True, weight_True]
    linarith

/-- Witness for C6 (amended) at distance 10, with `d = 12 ≥ d' = 3`. -/
theorem soft_pity_curve_amended_witness :
    account_for_soft_pity sSoft ⟨0, 1, false⟩
        = decide ((⟨0, 1, false⟩ : Rand).coin
            < weight_True (soft_pity_value sSoft))
      ∧ weight_True 12 = 6 / 100 * (1 + 16 - (12 : ℚ))
      ∧ weight_True 16 = 6 / 100
      ∧ weight_True 1 = 96 / 100
      ∧ weight_True 12 ≤ weight_True 3 :=
  soft_pity_curve_amended sSoft ⟨0, 1, false⟩ 12 3 (by decide) (by decide)
    (by decide) (by decide)

/-- C10: under the precondition `current_pity ≤ banner_pity`, the
weighted-coin branch of `_account_for_soft_pity` is only reachable from
`_one_wish` with `current_pity ≠ banner_pity`, hence with
`distance_to_cap ≥ 1`; there the weights satisfy
`weight_True ∈ (0, 1]` and `weight_False ∈ [0, 1)`, so the negative
weight the formula would produce at `distance_to_cap ≤ 0` never arises. -/
theorem weighted_branch_safe (s : BannerState) (r : Rand)
    (hpre : s.current_pity ≤ s.banner_pity)
    (hne : s.current_pity ≠ s.banner_pity)
    (hbr : soft_pity_value s ≤ 16) :
    1 ≤ soft_pity_value s
      ∧ 0 < weight_True (soft_pity_value s)
      ∧ weight_True (soft_pity_value s) ≤ 1
      ∧ 0 ≤ weight_False (soft_pity_value s)
      ∧ weight_False (soft_pity_value s) < 1
      ∧ account_for_soft_pity s r
          = decide (r.coin < weight_True (soft_pity_value s)) := by
  have hd1 : 1 ≤ soft_pity_value s := by
    unfold soft_pity_value
    omega
  have hq1 : (1 : ℚ) ≤ ((soft_pity_value s : ℤ) : ℚ) := by exact_mod_cast hd1
  have hq16 : ((soft_pity_value s : ℤ) : ℚ) ≤ 16 := by exact_mod_cast hbr
  refine ⟨hd1, ?_, ?_, ?_, ?_, ?_⟩
  · rw [weight_True]; linarith
  · rw [weight_True]; linarith
  · rw [weight_False, weight_True]; linarith
  · rw [weight_False, weight_True]; linarith
  · unfold account_for_soft_pity
    simp [hbr]

/-- Witness for C10 at pity 80 on a 90-pity banner. -/
theorem weighted_branch_safe_witness :
    1 ≤ soft_pity_value sSoft
      ∧ 0 < weight_True (soft_pity_value sSoft)
      ∧ weight_True (soft_pity_value sSoft) ≤ 1
      ∧ 0 ≤ weight_False (soft_pity_value sSoft)
      ∧ weight_False (soft_pity_value sSoft) < 1
      ∧ account_for_soft_pity sSoft ⟨0, 1, false⟩
          = decide ((⟨0, 1, false⟩ : Rand).coin
              < weight_True (soft_pity_value sSoft)) :=
  weighted_branch_safe sSoft ⟨0, 1, false⟩ (by decide) (by decide) (by decide)

/-! ### Aggregator-level claims -/

/-- C1 (code evaluation at the failing inputs): the "not reached" sentinel
is applied to `wishes_taken_single_round` but not to
`wishes_taken_single_round_first`.  Under `cfgA`/`rMiss` the single run
obtains no limited 5-star: `sum_tgt` receives the sentinel
`wish_count = 1`, yet `sum_first` receives the initial 0.  Under
`cfgC1`/`rC1` run 1 obtains a limited 5-star on wish 1 and run 2 obtains
none: `sum_tgt = 1 + 2` (sentinel applied to run 2) but
`sum_first = 1 + 1`, the second summand being the stale value carried
over from run 1 instead of the sentinel 2. -/
theorem first_hit_sentinel_missing :
    sim_totals cfgA rMiss = ⟨0, 0, 1⟩ ∧ sim_totals cfgC1 rC1 = ⟨1, 2, 3⟩ :=
  ⟨rfl, rfl⟩

/-- C2 (as amended): `average_wishes_taken_first` is exactly the ceiling
of the accumulated first-hit sum divided by `simulation_count`; no
infinity substitution is ever applied to it. -/
theorem avg_first_plain_ceiling (cfg : SimConfig) (r : ℕ → Rand) :
    (run_simulation cfg r).average_wishes_taken_first =
      AvgVal.val (Int.ceil (((sim_totals cfg r).sum_first : ℚ)
        / (cfg.simulation_count : ℚ))) :=
  rfl

/-- Counterexample to C2 as stated: under `cfgA`/`rMiss` the ceiling of
the first-hit average is 0, yet the reported
`average_wishes_taken_first` is the integer 0, not positive infinity. -/
theorem avg_first_zero_not_infinity_cx :
    Int.ceil (((sim_totals cfgA rMiss).sum_first : ℚ)
        / (cfgA.simulation_count : ℚ)) = 0
      ∧ (run_simulation cfgA rMiss).average_wishes_taken_first
          = AvgVal.val 0
      ∧ AvgVal.val 0 ≠ AvgVal.inf := by
  have ht : sim_totals cfgA rMiss = ⟨0, 0, 1⟩ := rfl
  refine ⟨?_, ?_, by simp⟩
  · rw [ht]
    show Int.ceil (((0 : ℕ) : ℚ) / (cfgA.simulation_count : ℚ)) = 0
    norm_num
  · show AvgVal.val (Int.ceil (((sim_totals cfgA rMiss).sum_first : ℚ)
        / (cfgA.simulation_count : ℚ))) = AvgVal.val 0
    rw [ht]
    show AvgVal.val (Int.ceil (((0 : ℕ) : ℚ) / (cfgA.simulation_count : ℚ)))
      = AvgVal.val 0
    norm_num

/-- Composing `_simulation`'s zero-to-infinity substitution with
`_display`'s budget-to-infinity substitution. -/
theorem display_comp (w : ℕ) (c : ℤ) :
    display_avg w (if c = 0 then AvgVal.inf else AvgVal.val c)
      = (if c = 0 ∨ c = (w : ℤ) then AvgVal.inf else AvgVal.val c) := by
  by_cases h0 : c = 0
  · simp [display_avg, h0]
  · by_cases hw : c = (w : ℤ)
    · subst hw
      have hw0 : ¬w = 0 := by exact_mod_cast h0
      simp [display_avg, hw0]
    · simp [display_avg, h0, hw]

/-- C3: the reported `average_wishes_taken` is the ceiling of the target
sum divided by `simulation_count`, replaced by positive infinity exactly
when that ceiling is 0 (done in `_simulation`) or equals the draw budget
`wish_count` (done in `_display`). -/
theorem avg_target_infinity_rule (cfg : SimConfig) (r : ℕ → Rand)
    (h : 0 < cfg.simulation_count) :
    (run_simulation cfg r).average_wishes_taken =
      (if Int.ceil (((sim_totals cfg r).sum_tgt : ℚ)
            / (cfg.simulation_count : ℚ)) = 0
          ∨ Int.ceil (((sim_totals cfg r).sum_tgt : ℚ)
              / (cfg.simulation_count : ℚ)) = (cfg.wish_count : ℤ) then
        AvgVal.inf
      else
        AvgVal.val (Int.ceil (((sim_totals cfg r).sum_tgt : ℚ)
          / (cfg.simulation_count : ℚ)))) :=
  display_comp cfg.wish_count
    (Int.ceil (((sim_totals cfg r).sum_tgt : ℚ) / (cfg.simulation_count : ℚ)))

/-- Witness for C3: under `cfgA`/`rMiss` the target ceiling is
`⌈1/1⌉ = 1 = wish_count`, so infinity is reported. -/
theorem avg_target_infinity_rule_witness :
    (run_simulation cfgA rMiss).average_wishes_taken = AvgVal.inf := by
  have h := avg_target_infinity_rule cfgA rMiss (by decide)
  rw [h]
  have ht : sim_totals cfgA rMiss = ⟨0, 0, 1⟩ := rfl
  rw [ht]
  show (if Int.ceil (((1 : ℕ) : ℚ) / ((1 : ℕ) : ℚ)) = 0
          ∨ Int.ceil (((1 : ℕ) : ℚ) / ((1 : ℕ) : ℚ)) = ((1 : ℕ) : ℤ) then
        AvgVal.inf
      else AvgVal.val (Int.ceil (((1 : ℕ) : ℚ) / ((1 : ℕ) : ℚ))))
    = AvgVal.inf
  norm_num

/-- C9: with the same configuration and the same random stream, two runs
of the full simulation report identical `success_probability`,
`success_trials`, `average_wishes_taken` and
`average_wishes_taken_first`. -/
theorem simulation_deterministic (cfg : SimConfig) (r1 r2 : ℕ → Rand)
    (h : r1 = r2) :
    (run_simulation cfg r1).success_probability
        = (run_simulation cfg r2).success_probability
      ∧ (run_simulation cfg r1).success_trials
          = (run_simulation cfg r2).success_trials
      ∧ (run_simulation cfg r1).average_wishes_taken
          = (run_simulation cfg r2).average_wishes_taken
      ∧ (run_simulation cfg r1).average_wishes_taken_first
          = (run_simulation cfg r2).average_wishes_taken_first := by
  subst h
  exact ⟨rfl, rfl, rfl, rfl⟩

/-- Witness for C9 at a concrete configuration and stream. -/
theorem simulation_deterministic_witness :
    (run_simulation cfgA rMiss).success_probability
        = (run_simulation cfgA rMiss).success_probability
      ∧ (run_simulation cfgA rMiss).success_trials
          = (run_simulation cfgA rMiss).success_trials
      ∧ (run_simulation cfgA rMiss).average_wishes_taken
          = (run_simulation cfgA rMiss).average_wishes_taken
      ∧ (run_simulation cfgA rMiss).average_wishes_taken_first
          = (run_simulation cfgA rMiss).average_wishes_taken_first :=
  simulation_deterministic cfgA rMiss rMiss rfl

end Sim
